import Mathlib

/-!
Verification of the Strava–Garmin name-synchronisation application.

Shallow embedding of the application's core (matcher, update-decision engine,
Garmin start-time parsing, and the sync coordinator of
`src/strava_garmin_sync_app/`) as executable Lean definitions, followed by
theorems about the embedded code.

Modelling conventions:
* Python `datetime` values are embedded as a `DateTime` record with
  microsecond resolution; `timedelta.total_seconds()` comparisons are exact on
  microsecond counts, so time differences are compared as integers of
  microseconds (60 seconds = 60 * 1000000 microseconds).
* Python dicts keyed by activity id are embedded as association lists
  (`List (String × GarminActivity)`); iteration order is insertion order, as in
  Python.  A Python `set` of ids is embedded as a duplicate-free `List String`.
* Network calls are part of the environment: fetched activity lists and the
  success/failure of the Strava update call are inputs of the embedded
  coordinator (`SyncEnv`), not effects.
-/

namespace StravaGarmin

/-- Embedding of Python `str.strip()`: drop leading and trailing whitespace. -/
def pyStrip (s : String) : String :=
  String.mk (((s.data.dropWhile Char.isWhitespace).reverse.dropWhile Char.isWhitespace).reverse)

/-- Embedding of Python `str.lower()` (ASCII range, which covers all activity
type strings handled by the application). -/
def pyLower (s : String) : String :=
  String.mk (s.data.map Char.toLower)

/-- Embedding of Python `c in s` for a single character. -/
def containsChar (s : String) (c : Char) : Bool :=
  s.data.contains c

/-- Embedding of `start_time_str.replace('Z', '')` from
`garmin_service._parse_garmin_start_time`: the pattern is the single character
`'Z'` and the replacement is empty, so every occurrence of `'Z'` is removed. -/
def removeZ (s : String) : String :=
  String.mk (s.data.filter (fun c => c != 'Z'))

/-- A timezone-naive Python `datetime` value (microsecond resolution). -/
structure DateTime where
  year : Nat
  month : Nat
  day : Nat
  hour : Nat
  minute : Nat
  second : Nat
  microsecond : Nat
deriving DecidableEq

/-- Days from 1970-01-01 to the given civil date (standard civil-from-days
inverse); all intermediate quantities are nonnegative for years >= 1, matching
the `datetime` range, so natural floor division is exact. -/
def daysFromCivil (y m d : Nat) : Int :=
  let yAdj := if m ≤ 2 then y - 1 else y
  let era := yAdj / 400
  let yoe := yAdj - era * 400
  let mp := (m + 9) % 12
  let doy := (153 * mp + 2) / 5 + d - 1
  let doe := yoe * 365 + yoe / 4 - yoe / 100 + doy
  (era * 146097 + doe : Int) - 719468

/-- Microseconds since the epoch; Python `datetime` subtraction followed by
`total_seconds()` is exact arithmetic on this quantity. -/
def DateTime.toMicro (dt : DateTime) : Int :=
  ((daysFromCivil dt.year dt.month dt.day) * 86400
      + (dt.hour : Int) * 3600 + (dt.minute : Int) * 60 + (dt.second : Int)) * 1000000
    + (dt.microsecond : Int)

/-- Numeric value of a list of decimal digit characters. -/
def digitsVal (cs : List Char) : Nat :=
  cs.foldl (fun n c => n * 10 + (c.toNat - 48)) 0

/-- Read exactly `n` decimal digits from the front of the character list. -/
def takeDigits (n : Nat) (cs : List Char) : Option (Nat × List Char) :=
  let pre := cs.take n
  if pre.length = n ∧ pre.all Char.isDigit then some (digitsVal pre, cs.drop n) else none

/-- Require the character `c` at the front of the list. -/
def expectChar (c : Char) : List Char → Option (List Char)
  | [] => none
  | x :: xs => if x = c then some xs else none

/-- Gregorian leap-year rule, as used by Python `datetime` validation. -/
def isLeapYear (y : Nat) : Bool :=
  decide (y % 4 = 0 ∧ (y % 100 ≠ 0 ∨ y % 400 = 0))

/-- Number of days of month `m` in year `y`. -/
def daysInMonth (y m : Nat) : Nat :=
  if m = 2 then (if isLeapYear y then 29 else 28)
  else if m = 4 ∨ m = 6 ∨ m = 9 ∨ m = 11 then 30
  else 31

/-- Validity of a civil date per Python `datetime` (year 1..9999). -/
def validYMD (y m d : Nat) : Bool :=
  decide (1 ≤ y ∧ y ≤ 9999 ∧ 1 ≤ m ∧ m ≤ 12 ∧ 1 ≤ d ∧ d ≤ daysInMonth y m)

/-- Validity of a time of day per Python `datetime`. -/
def validHMS (h mi s : Nat) : Bool :=
  decide (h < 24 ∧ mi < 60 ∧ s < 60)

/-- Fractional-second suffix `.d{1,6}`, scaled to microseconds. -/
def parseFraction : List Char → Option (Nat × List Char)
  | '.' :: rest =>
    let ds := rest.takeWhile Char.isDigit
    if 1 ≤ ds.length ∧ ds.length ≤ 6 then
      some (digitsVal ds * 10 ^ (6 - ds.length), rest.drop ds.length)
    else none
  | _ => none

/-- Embedding of `datetime.fromisoformat` restricted to the naive timestamps
the application feeds it: `YYYY-MM-DDTHH:MM:SS` with an optional fractional
part of one to six digits.  Strings outside this core (timezone offsets,
reduced-precision forms) are not produced by the Garmin API paths under
verification. -/
def fromisoformatCore (s : String) : Option DateTime := do
  let (y, r) ← takeDigits 4 s.data
  let r ← expectChar '-' r
  let (mo, r) ← takeDigits 2 r
  let r ← expectChar '-' r
  let (d, r) ← takeDigits 2 r
  let r ← expectChar 'T' r
  let (h, r) ← takeDigits 2 r
  let r ← expectChar ':' r
  let (mi, r) ← takeDigits 2 r
  let r ← expectChar ':' r
  let (sec, r) ← takeDigits 2 r
  let (us, r) ←
    match r with
    | [] => some (0, ([] : List Char))
    | _ => parseFraction r
  if r = [] ∧ validYMD y mo d = true ∧ validHMS h mi sec = true then
    pure ⟨y, mo, d, h, mi, sec, us⟩
  else none

/-- Embedding of `datetime.strptime(s, '%Y-%m-%d %H:%M:%S')` on the canonical
zero-padded form produced by the Garmin API. -/
def strptimeYmdHms (s : String) : Option DateTime := do
  let (y, r) ← takeDigits 4 s.data
  let r ← expectChar '-' r
  let (mo, r) ← takeDigits 2 r
  let r ← expectChar '-' r
  let (d, r) ← takeDigits 2 r
  let r ← expectChar ' ' r
  let (h, r) ← takeDigits 2 r
  let r ← expectChar ':' r
  let (mi, r) ← takeDigits 2 r
  let r ← expectChar ':' r
  let (sec, r) ← takeDigits 2 r
  if r = [] ∧ validYMD y mo d = true ∧ validHMS h mi sec = true then
    pure ⟨y, mo, d, h, mi, sec, 0⟩
  else none

/-- Embedding of `garmin_service._parse_garmin_start_time`: empty string gives
`None`; strings containing `'T'` go through `fromisoformat` after removing
`'Z'`; other strings go through `strptime('%Y-%m-%d %H:%M:%S')`; any parse
failure yields `None`. -/
def _parse_garmin_start_time (start_time_str : String) : Option DateTime :=
  if start_time_str = "" then none
  else if containsChar start_time_str 'T' = true then
    fromisoformatCore (removeZ start_time_str)
  else
    strptimeYmdHms start_time_str

/-- A Garmin `Workout` record (`workoutName` / `description`, either possibly
absent from the JSON object, hence `Option`). -/
structure Workout where
  workoutName : Option String
  description : Option String
deriving DecidableEq

/-- A raw Garmin activity record, as consumed by the application.  String
fields read through `.get(key, '')` in the source are plain `String`s with `""`
for an absent key; `parsed_start_time` models the key added by
`process_garmin_activity` (`none` = key absent); `typeKey` is
`activityType.typeKey` (`""` when absent); `workout` models the record
optionally attached by `_maybe_attach_workout` (an external per-workout fetch,
so it appears here as part of the input data). -/
structure GarminActivity where
  activityId : String
  activityName : String
  description : String
  startTimeLocal : String
  typeKey : String
  workout : Option Workout
  parsed_start_time : Option DateTime
deriving DecidableEq

/-- The `ActivityData` dataclass of `models.py` (one Strava activity). -/
structure ActivityData where
  id : String
  name : String
  start_date : DateTime
  type : String
  garmin_id : Option String := none
deriving DecidableEq

/-- Embedding of Python dict assignment `activities[activity_id] = activity`
on an association list: replace the binding when the key is present, else
append it. -/
def dictInsert (pool : List (String × GarminActivity)) (k : String) (v : GarminActivity) :
    List (String × GarminActivity) :=
  if pool.any (fun p => p.1 == k) then
    pool.map (fun p => if p.1 == k then (k, v) else p)
  else pool ++ [(k, v)]

/-- Embedding of `garmin_service.process_garmin_activity`: drop the record when
the activity id is empty or the start time does not parse; otherwise store it
in the pool with the `parsed_start_time` field attached. -/
def process_garmin_activity (activities : List (String × GarminActivity))
    (activity : GarminActivity) : List (String × GarminActivity) :=
  let activity_id := activity.activityId
  if activity_id = "" then activities
  else
    match _parse_garmin_start_time activity.startTimeLocal with
    | none => activities
    | some parsed =>
        dictInsert activities activity_id { activity with parsed_start_time := some parsed }

/-- The `GARMIN_TO_STRAVA_TYPE` table of `constants.py`, as a partial map. -/
def GARMIN_TO_STRAVA_TYPE (k : String) : Option String :=
  if k = "running" then some "run"
  else if k = "cycling" then some "ride"
  else if k = "swimming" then some "swim"
  else if k = "walking" then some "walk"
  else if k = "hiking" then some "hike"
  else if k = "multi_sport" then some "workout"
  else if k = "fitness_equipment" then some "workout"
  else if k = "other" then some "workout"
  else none

/-- `activity.get('activityType', {}).get('typeKey', '').lower()`. -/
def garminTypeOf (g : GarminActivity) : String :=
  pyLower g.typeKey

/-- `GARMIN_TO_STRAVA_TYPE.get(garmin_type, garmin_type)`: lookup with the key
itself as default for unmapped keys. -/
def mappedStravaTypeOf (g : GarminActivity) : String :=
  (GARMIN_TO_STRAVA_TYPE (garminTypeOf g)).getD (garminTypeOf g)

/-- The target's type string, lowercased (for `ActivityData` the `.value`
attribute probe falls back to `str(...)`, i.e. the string itself). -/
def stravaTypeOf (t : ActivityData) : String :=
  pyLower t.type

/-- Scan state of `find_matching_garmin_activity`: current best match and the
running minimum time difference (`none` models the initial `float('inf')`). -/
structure MatchState where
  best_match : Option GarminActivity
  min_time_diff : Option Int
deriving DecidableEq

/-- `time_diff < min_time_diff` where `none` is `float('inf')`. -/
def ltInf (d : Int) : Option Int → Bool
  | none => true
  | some m => decide (d < m)

/-- One iteration of the candidate loop of `find_matching_garmin_activity`:
skip candidates without a parsed start time; when the absolute time difference
is below 60 seconds and below the running minimum, first lower the running
minimum, then reject the candidate (keeping the lowered minimum — the `continue`
in the source) if its mapped type and the target type are both non-empty and
differ; otherwise record it as the new best match. -/
def matchStep (strava_activity : ActivityData) (s : MatchState) (g : GarminActivity) :
    MatchState :=
  match g.parsed_start_time with
  | none => s
  | some garmin_start =>
    let time_diff : Int :=
      |DateTime.toMicro garmin_start - DateTime.toMicro strava_activity.start_date|
    if time_diff < 60 * 1000000 ∧ ltInf time_diff s.min_time_diff = true then
      if mappedStravaTypeOf g ≠ "" ∧ stravaTypeOf strava_activity ≠ "" ∧
          mappedStravaTypeOf g ≠ stravaTypeOf strava_activity then
        { s with min_time_diff := some time_diff }
      else
        { best_match := some g, min_time_diff := some time_diff }
    else s

/-- Embedding of `find_matching_garmin_activity`: fold the candidate loop over
the Garmin activities (dict values in insertion order) and return the final
best match. -/
def find_matching_garmin_activity (strava_activity : ActivityData)
    (garmin_activities : List GarminActivity) : Option GarminActivity :=
  (garmin_activities.foldl (matchStep strava_activity) ⟨none, none⟩).best_match

/-- Absolute start-time difference between a target and a candidate, in
microseconds (`none` when the candidate has no parsed start time). -/
def parsedDiffMicro (t : ActivityData) (g : GarminActivity) : Option Int :=
  g.parsed_start_time.map (fun ts => |DateTime.toMicro ts - DateTime.toMicro t.start_date|)

/-- The generic-name denylist of `should_update_activity`. -/
def genericNames : List String :=
  ["Running", "Cycling", "Walking", "Swimming", "Workout"]

/-- `garmin_activity.get('activityName', '').strip()`. -/
def baseGarminName (g : GarminActivity) : String :=
  pyStrip g.activityName

/-- `garmin_activity.get('description', '').strip()`. -/
def baseGarminDescription (g : GarminActivity) : String :=
  pyStrip g.description

/-- Effective Garmin name: `workout.get('workoutName', garmin_name).strip() or
garmin_name` when a workout is attached, else the stripped activity name. -/
def effectiveGarminName (g : GarminActivity) : String :=
  let garmin_name := baseGarminName g
  match g.workout with
  | none => garmin_name
  | some w =>
    let fromWorkout := pyStrip (w.workoutName.getD garmin_name)
    if fromWorkout = "" then garmin_name else fromWorkout

/-- Effective Garmin description: `workout.get('description',
garmin_description).strip() or garmin_description` when a workout is attached,
else the stripped activity description. -/
def effectiveGarminDescription (g : GarminActivity) : String :=
  let garmin_description := baseGarminDescription g
  match g.workout with
  | none => garmin_description
  | some w =>
    let fromWorkout := pyStrip (w.description.getD garmin_description)
    if fromWorkout = "" then garmin_description else fromWorkout

/-- Embedding of `should_update_activity`: returns
`(needs_update, new_name, new_description)`. -/
def should_update_activity (strava_activity : ActivityData) (garmin_activity : GarminActivity) :
    Bool × String × Option String :=
  let garmin_name := effectiveGarminName garmin_activity
  let garmin_description := effectiveGarminDescription garmin_activity
  let strava_name := pyStrip strava_activity.name
  let nameDecision : Bool × String :=
    if garmin_name ≠ "" ∧ garmin_name ≠ strava_name then
      if garmin_name ∉ genericNames ∨ strava_name ∈ genericNames then (true, garmin_name)
      else (false, strava_name)
    else (false, strava_name)
  let new_description : Option String :=
    if garmin_description ≠ "" then some garmin_description else none
  (nameDecision.1, nameDecision.2, new_description)

/-- Embedding of `strava_service.update_strava_activity`: under dry-run the
call logs and reports success without touching the Strava client; otherwise the
outcome of the real API call is given by the environment's per-activity oracle
(`true` = the call returned, `false` = it raised and was caught). -/
def update_strava_activity (dry_run : Bool) (updateOk : String → Bool)
    (activity_id : String) (_name : String) (_description : Option String) : Bool :=
  if dry_run = true then true else updateOk activity_id

/-- One fixed input snapshot for a sync run: the Brussels local hour at entry,
the dry-run flag, the outcomes of the two client initialisations, the activity
lists both fetches would return, and the outcome of each real update call. -/
structure SyncEnv where
  hour : Nat
  dry_run : Bool
  stravaInitOk : Bool
  garminInitOk : Bool
  stravaActivities : List ActivityData
  garminActivities : List GarminActivity
  updateOk : String → Bool

/-- The `(updated, skipped, error)` triple returned by
`_process_sync_activity`. -/
structure ProcessOutcome where
  updated : Bool
  skipped : Bool
  error : Bool
deriving DecidableEq

/-- Embedding of `synced_cache.add(id)` on the duplicate-free list embedding of
a Python set. -/
def cacheAdd (cache : List String) (id : String) : List String :=
  if id ∈ cache then cache else cache ++ [id]

/-- Embedding of `_process_sync_activity`: no match → skipped, id cached; match
but no update needed → skipped, id cached; update succeeds → updated, id
cached; update fails → error, id left out of the cache. -/
def _process_sync_activity (env : SyncEnv) (strava_activity : ActivityData)
    (synced_cache : List String) : ProcessOutcome × List String :=
  match find_matching_garmin_activity strava_activity env.garminActivities with
  | none => (⟨false, true, false⟩, cacheAdd synced_cache strava_activity.id)
  | some garmin_activity =>
    let decision := should_update_activity strava_activity garmin_activity
    if decision.1 = false then
      (⟨false, true, false⟩, cacheAdd synced_cache strava_activity.id)
    else if update_strava_activity env.dry_run env.updateOk strava_activity.id
        decision.2.1 decision.2.2 = true then
      (⟨true, false, false⟩, cacheAdd synced_cache strava_activity.id)
    else
      (⟨false, false, true⟩, synced_cache)

/-- The per-activity loop of `sync_activities`, threading the
`(updates, skipped, errors)` counters and the synced cache. -/
def syncLoop (env : SyncEnv) :
    List ActivityData → (Nat × Nat × Nat) × List String → (Nat × Nat × Nat) × List String
  | [], acc => acc
  | a :: rest, acc =>
    let p := _process_sync_activity env a acc.2
    syncLoop env rest
      ((acc.1.1 + p.1.updated.toNat, acc.1.2.1 + p.1.skipped.toNat,
        acc.1.2.2 + p.1.error.toNat), p.2)

/-- Observable outcome of one `sync_activities` run: the boolean return value,
which effects happened (Strava fetch, cache load, Garmin fetch), the reported
counters, and the cache contents written back (`none` when the run returned
before the persist step).  The counters are meaningful only on runs that reach
the reconcile loop. -/
structure SyncResult where
  ok : Bool
  fetchedStrava : Bool
  cacheLoaded : Bool
  fetchedGarmin : Bool
  updates : Nat
  skipped : Nat
  errors : Nat
  cachedIgnored : Nat
  totalProcessed : Nat
  persistedCache : Option (List String)

/-- The `FILTER_CACHE` step: activities whose id is not yet in the synced
cache (`[a for a in strava_activities if a.id not in synced_cache]`). -/
def pendingActivities (env : SyncEnv) (synced_cache : List String) : List ActivityData :=
  env.stravaActivities.filter (fun a => decide (a.id ∉ synced_cache))

/-- Result of a run stopped by the blackout window: `return True` before any
fetch, cache access or loop. -/
def blackoutResult : SyncResult :=
  { ok := true, fetchedStrava := false, cacheLoaded := false, fetchedGarmin := false,
    updates := 0, skipped := 0, errors := 0, cachedIgnored := 0, totalProcessed := 0,
    persistedCache := none }

/-- Result of a run aborted because the Strava client failed to initialise. -/
def stravaFailResult : SyncResult :=
  { ok := false, fetchedStrava := false, cacheLoaded := false, fetchedGarmin := false,
    updates := 0, skipped := 0, errors := 0, cachedIgnored := 0, totalProcessed := 0,
    persistedCache := none }

/-- Result of a run aborted because the Garmin client failed to initialise
(reached only when some activity was still pending). -/
def garminFailResult (env : SyncEnv) (storedCache : List String) : SyncResult :=
  { ok := false, fetchedStrava := true, cacheLoaded := true, fetchedGarmin := false,
    updates := 0, skipped := 0, errors := 0,
    cachedIgnored := max 0 (env.stravaActivities.length -
      (pendingActivities env storedCache).length),
    totalProcessed := 0, persistedCache := none }

/-- Result of a run that reaches the reconcile loop and the persist step. -/
def syncMainResult (env : SyncEnv) (storedCache : List String) : SyncResult :=
  let strava_activities_to_update := pendingActivities env storedCache
  let r := syncLoop env strava_activities_to_update ((0, 0, 0), storedCache)
  { ok := true, fetchedStrava := true, cacheLoaded := true,
    fetchedGarmin := !strava_activities_to_update.isEmpty,
    updates := r.1.1, skipped := r.1.2.1, errors := r.1.2.2,
    cachedIgnored := max 0 (env.stravaActivities.length -
      strava_activities_to_update.length),
    totalProcessed := strava_activities_to_update.length,
    persistedCache := some r.2 }

/-- Embedding of `sync_activities` over a fixed snapshot `env`, with
`storedCache` the content of the synced-cache file at the start of the run:
blackout-window check, Strava client init, fetch + cache filter, conditional
Garmin init and fetch, reconcile loop, cache persist. -/
def sync_activities (env : SyncEnv) (storedCache : List String) : SyncResult :=
  if 0 ≤ env.hour ∧ env.hour < 6 then blackoutResult
  else if env.stravaInitOk = false then stravaFailResult
  else if pendingActivities env storedCache ≠ [] ∧ env.garminInitOk = false then
    garminFailResult env storedCache
  else syncMainResult env storedCache

/-- Whether processing activity `a` under `env` ends in the error branch; the
outcome triple of `_process_sync_activity` does not depend on the cache
argument, so the empty cache is a canonical representative. -/
def errFlag (env : SyncEnv) (a : ActivityData) : Bool :=
  (_process_sync_activity env a []).1.error

/-- Lower bound by `d` of the running minimum: the minimum is assigned and at
most `d`.  Used to reason about the non-resetting minimum of the matcher. -/
def minLeD (s : MatchState) (d : Int) : Prop :=
  ∃ m, s.min_time_diff = some m ∧ m ≤ d

/-! Concrete fixtures used by witnesses and counterexamples. -/

/-- Reference timestamp 2024-01-01 10:00:00. -/
def dt0 : DateTime := ⟨2024, 1, 1, 10, 0, 0, 0⟩

/-- A Strava target activity of type `Run`. -/
def tgtRun : ActivityData :=
  { id := "A2", name := "Morning Run", start_date := dt0, type := "Run" }

/-- Garmin candidate: running, 30 s after the target, informative name. -/
def gTempo : GarminActivity :=
  { activityId := "g1", activityName := "Tempo Run 5k", description := "",
    startTimeLocal := "2024-01-01 10:00:30", typeKey := "running", workout := none,
    parsed_start_time := some ⟨2024, 1, 1, 10, 0, 30, 0⟩ }

/-- Garmin candidate: cycling (type-incompatible with a run), 10 s away. -/
def gCyc10 : GarminActivity :=
  { gTempo with
    activityId := "g2"
    typeKey := "cycling"
    parsed_start_time := some ⟨2024, 1, 1, 10, 0, 10, 0⟩ }

/-- Garmin candidate: running (type-compatible), 20 s away. -/
def gRun20 : GarminActivity :=
  { gTempo with
    activityId := "g3"
    parsed_start_time := some ⟨2024, 1, 1, 10, 0, 20, 0⟩ }

/-- Garmin candidate with an empty `typeKey`, at the exact target time. -/
def gEmptyType : GarminActivity :=
  { gTempo with activityId := "g4", typeKey := "", parsed_start_time := some dt0 }

/-- A raw Garmin record with an empty activity id but a parseable start time. -/
def gNoId : GarminActivity :=
  { activityId := "", activityName := "x", description := "",
    startTimeLocal := "2024-01-01 10:00:00", typeKey := "running", workout := none,
    parsed_start_time := none }

/-- A raw Garmin record before processing (no `parsed_start_time` key yet). -/
def gRaw : GarminActivity := { gTempo with parsed_start_time := none }

/-- A raw Garmin record with an unparseable start time. -/
def gGarb : GarminActivity := { gRaw with startTimeLocal := "garbage" }

/-- Snapshot in which the single pending activity matches and needs an update,
but the real update call fails. -/
def envUpdFail : SyncEnv :=
  { hour := 12, dry_run := false, stravaInitOk := true, garminInitOk := true,
    stravaActivities := [tgtRun], garminActivities := [gTempo], updateOk := fun _ => false }

/-- Same snapshot with a succeeding update call. -/
def envUpdOk : SyncEnv := { envUpdFail with updateOk := fun _ => true }

/-- Same snapshot under dry-run. -/
def envDryRun : SyncEnv := { envUpdFail with dry_run := true }

/-! Theorems.  First, generic lemmas about the matcher's scan. -/

/-- An invariant preserved by every loop iteration holds for the whole scan. -/
theorem matchFold_inv (t : ActivityData) (P : MatchState → Prop)
    (hstep : ∀ s g, P s → P (matchStep t s g)) :
    ∀ (l : List GarminActivity) (s : MatchState), P s → P (l.foldl (matchStep t) s) := by
  intro l
  induction l with
  | nil => intro s hs; exact hs
  | cons g rest ih => intro s hs; exact ih _ (hstep s g hs)

/-- Any best match recorded by one iteration has a parsed start time less than
60 seconds away from the target's start time. -/
theorem matchStep_time_inv (t : ActivityData) (s : MatchState) (g : GarminActivity)
    (hP : ∀ x, s.best_match = some x →
        (parsedDiffMicro t x).getD (60 * 1000000) < 60 * 1000000) :
    ∀ x, (matchStep t s g).best_match = some x →
      (parsedDiffMicro t x).getD (60 * 1000000) < 60 * 1000000 := by
  intro x hx
  unfold matchStep at hx
  cases hp : g.parsed_start_time with
  | none => rw [hp] at hx; exact hP x hx
  | some ts =>
    rw [hp] at hx
    simp only at hx
    by_cases h1 : |DateTime.toMicro ts - DateTime.toMicro t.start_date| < 60 * 1000000 ∧
        ltInf |DateTime.toMicro ts - DateTime.toMicro t.start_date| s.min_time_diff = true
    · rw [if_pos h1] at hx
      by_cases h2 : mappedStravaTypeOf g ≠ "" ∧ stravaTypeOf t ≠ "" ∧
          mappedStravaTypeOf g ≠ stravaTypeOf t
      · rw [if_pos h2] at hx
        exact hP x hx
      · rw [if_neg h2] at hx
        simp only at hx
        cases hx
        unfold parsedDiffMicro
        rw [hp]
        simpa using h1.1
    · rw [if_neg h1] at hx
      exact hP x hx

/-- C1: the Matcher never returns a candidate whose parsed start time differs
from the target's start time by 60 seconds or more: any returned match has an
assigned parsed start time with absolute difference strictly below 60 seconds
(60 * 1000000 microseconds); a candidate at or above that difference is never
recorded as best match. -/
theorem c1_matcher_time_tolerance (t : ActivityData) (gs : List GarminActivity)
    (g : GarminActivity) (h : find_matching_garmin_activity t gs = some g) :
    (parsedDiffMicro t g).getD (60 * 1000000) < 60 * 1000000 := by
  have hinv := matchFold_inv t
    (fun s => ∀ x, s.best_match = some x →
        (parsedDiffMicro t x).getD (60 * 1000000) < 60 * 1000000)
    (matchStep_time_inv t) gs ⟨none, none⟩
    (by intro x hx; exact Option.noConfusion hx)
  exact hinv g h

/-- Witness for C1 at a concrete input: the matcher returns `gTempo` (30 s
away) and its recorded difference is below the 60-second bound. -/
theorem c1_matcher_time_tolerance_witness :
    (parsedDiffMicro tgtRun gTempo).getD (60 * 1000000) < 60 * 1000000 :=
  c1_matcher_time_tolerance tgtRun [gTempo] gTempo (by decide)

/-- Any best match recorded by one iteration satisfies the conditional type
compatibility: when its mapped type and the target type are both non-empty,
they agree. -/
theorem matchStep_type_inv (t : ActivityData) (s : MatchState) (g : GarminActivity)
    (hP : ∀ x, s.best_match = some x → mappedStravaTypeOf x ≠ "" → stravaTypeOf t ≠ "" →
        mappedStravaTypeOf x = stravaTypeOf t) :
    ∀ x, (matchStep t s g).best_match = some x → mappedStravaTypeOf x ≠ "" →
      stravaTypeOf t ≠ "" → mappedStravaTypeOf x = stravaTypeOf t := by
  intro x hx
  unfold matchStep at hx
  cases hp : g.parsed_start_time with
  | none => rw [hp] at hx; exact hP x hx
  | some ts =>
    rw [hp] at hx
    simp only at hx
    by_cases h1 : |DateTime.toMicro ts - DateTime.toMicro t.start_date| < 60 * 1000000 ∧
        ltInf |DateTime.toMicro ts - DateTime.toMicro t.start_date| s.min_time_diff = true
    · rw [if_pos h1] at hx
      by_cases h2 : mappedStravaTypeOf g ≠ "" ∧ stravaTypeOf t ≠ "" ∧
          mappedStravaTypeOf g ≠ stravaTypeOf t
      · rw [if_pos h2] at hx
        exact hP x hx
      · rw [if_neg h2] at hx
        simp only at hx
        cases hx
        intro hm ht
        rcases not_and_or.mp h2 with hc | hc
        · exact absurd hm (not_not.mp (by simpa using hc))
        · rcases not_and_or.mp hc with hc2 | hc2
          · exact absurd ht (not_not.mp (by simpa using hc2))
          · exact not_not.mp hc2
    · rw [if_neg h1] at hx
      exact hP x hx

/-- C3 counterexample.  Part one: a candidate with an empty `typeKey` (mapped
type `""`) within tolerance is returned even though its mapped type does not
equal the target's type.  Part two: with a closer type-incompatible candidate
scanned first, the Matcher returns none although an eligible, type-compatible
candidate (`gRun20`, 20 s away, mapped type `run` = target type) exists. -/
theorem c3_counterexample :
    find_matching_garmin_activity tgtRun [gEmptyType] = some gEmptyType ∧
    mappedStravaTypeOf gEmptyType ≠ stravaTypeOf tgtRun ∧
    find_matching_garmin_activity tgtRun [gCyc10, gRun20] = none ∧
    (parsedDiffMicro tgtRun gRun20).getD (60 * 1000000) < 60 * 1000000 ∧
    mappedStravaTypeOf gRun20 = stravaTypeOf tgtRun := by
  refine ⟨by decide, by decide, by decide, by decide, by decide⟩

/-- C3 (amended): every pair the Matcher returns has the candidate's mapped
type equal (after lowercasing, i.e. case-insensitively) to the target's type
whenever both the mapped type and the target's type are non-empty; an empty
mapped type or an empty target type bypasses the compatibility check. -/
theorem c3_matcher_type_compat (t : ActivityData) (gs : List GarminActivity)
    (g : GarminActivity) (h : find_matching_garmin_activity t gs = some g)
    (hm : mappedStravaTypeOf g ≠ "") (ht : stravaTypeOf t ≠ "") :
    mappedStravaTypeOf g = stravaTypeOf t := by
  have hinv := matchFold_inv t
    (fun s => ∀ x, s.best_match = some x → mappedStravaTypeOf x ≠ "" →
        stravaTypeOf t ≠ "" → mappedStravaTypeOf x = stravaTypeOf t)
    (matchStep_type_inv t) gs ⟨none, none⟩
    (by intro x hx; exact Option.noConfusion hx)
  exact hinv g h hm ht

/-- Witness for C3 at a concrete input: the match returned for the running
target has mapped type equal to the target's lowercased type. -/
theorem c3_matcher_type_compat_witness :
    mappedStravaTypeOf gTempo = stravaTypeOf tgtRun :=
  c3_matcher_type_compat tgtRun [gTempo] gTempo (by decide) (by decide) (by decide)

/-- A type-incompatible candidate is never accepted as best match, whatever
the scan state (it may still lower the running minimum). -/
theorem matchStep_best_of_incompat (t : ActivityData) (a : GarminActivity)
    (h2 : mappedStravaTypeOf a ≠ "" ∧ stravaTypeOf t ≠ "" ∧
      mappedStravaTypeOf a ≠ stravaTypeOf t) (s : MatchState) :
    (matchStep t s a).best_match = s.best_match := by
  unfold matchStep
  cases hp : a.parsed_start_time with
  | none => rfl
  | some ts =>
    simp only
    by_cases h1 : |DateTime.toMicro ts - DateTime.toMicro t.start_date| < 60 * 1000000 ∧
        ltInf |DateTime.toMicro ts - DateTime.toMicro t.start_date| s.min_time_diff = true
    · rw [if_pos h1, if_pos h2]
    · rw [if_neg h1]

/-- After scanning an eligible candidate (below the 60-second tolerance), the
running minimum is assigned and bounded by that candidate's difference —
whether or not the candidate was type-compatible. -/
theorem matchStep_minLe (t : ActivityData) (a : GarminActivity) (ta : DateTime)
    (hp : a.parsed_start_time = some ta)
    (h60 : |DateTime.toMicro ta - DateTime.toMicro t.start_date| < 60 * 1000000)
    (s : MatchState) :
    minLeD (matchStep t s a) (|DateTime.toMicro ta - DateTime.toMicro t.start_date|) := by
  unfold matchStep
  rw [hp]
  simp only
  set d := |DateTime.toMicro ta - DateTime.toMicro t.start_date| with hd
  by_cases h1 : d < 60 * 1000000 ∧ ltInf d s.min_time_diff = true
  · rw [if_pos h1]
    by_cases h2 : mappedStravaTypeOf a ≠ "" ∧ stravaTypeOf t ≠ "" ∧
        mappedStravaTypeOf a ≠ stravaTypeOf t
    · rw [if_pos h2]; exact ⟨d, rfl, le_refl d⟩
    · rw [if_neg h2]; exact ⟨d, rfl, le_refl d⟩
  · rw [if_neg h1]
    cases hm : s.min_time_diff with
    | none => exact absurd ⟨h60, by simp [ltInf, hm]⟩ h1
    | some m =>
      refine ⟨m, hm, ?_⟩
      by_contra hlt
      push_neg at hlt
      exact h1 ⟨h60, by simp only [ltInf, hm]; exact decide_eq_true hlt⟩

/-- The running minimum never increases during the scan (single step). -/
theorem minLeD_step_mono (t : ActivityData) (g : GarminActivity) (s : MatchState) (d : Int)
    (h : minLeD s d) : minLeD (matchStep t s g) d := by
  obtain ⟨m, hm, hmd⟩ := h
  unfold matchStep
  cases hp : g.parsed_start_time with
  | none => exact ⟨m, hm, hmd⟩
  | some ts =>
    simp only
    set td := |DateTime.toMicro ts - DateTime.toMicro t.start_date| with htd
    by_cases h1 : td < 60 * 1000000 ∧ ltInf td s.min_time_diff = true
    · have hlt : td < m := by
        have h2 := h1.2
        rw [hm] at h2
        simpa [ltInf] using h2
      rw [if_pos h1]
      by_cases h2 : mappedStravaTypeOf g ≠ "" ∧ stravaTypeOf t ≠ "" ∧
          mappedStravaTypeOf g ≠ stravaTypeOf t
      · rw [if_pos h2]; exact ⟨td, rfl, le_trans (le_of_lt hlt) hmd⟩
      · rw [if_neg h2]; exact ⟨td, rfl, le_trans (le_of_lt hlt) hmd⟩
    · rw [if_neg h1]; exact ⟨m, hm, hmd⟩

/-- The running minimum never increases during the scan (whole list). -/
theorem minLeD_fold_mono (t : ActivityData) (l : List GarminActivity) (s : MatchState)
    (d : Int) (h : minLeD s d) : minLeD (l.foldl (matchStep t) s) d :=
  matchFold_inv t (fun s2 => minLeD s2 d) (fun s2 g => minLeD_step_mono t g s2 d) l s h

/-- A candidate whose difference is at least the current running minimum is
skipped entirely: the scan state is unchanged (this covers ties — only a
strictly smaller difference replaces the current best). -/
theorem matchStep_skip (t : ActivityData) (b : GarminActivity) (tb : DateTime)
    (hp : b.parsed_start_time = some tb) (s : MatchState) (m : Int)
    (hm : s.min_time_diff = some m)
    (hle : m ≤ |DateTime.toMicro tb - DateTime.toMicro t.start_date|) :
    matchStep t s b = s := by
  unfold matchStep
  rw [hp]
  simp only
  set td := |DateTime.toMicro tb - DateTime.toMicro t.start_date| with htd
  have hcond : ¬ (td < 60 * 1000000 ∧ ltInf td s.min_time_diff = true) := by
    rintro ⟨h60, hlt⟩
    rw [hm] at hlt
    have : td < m := by simpa [ltInf] using hlt
    omega
  rw [if_neg hcond]

/-- C4: a type-incompatible candidate lowers the tracked minimum without being
accepted (its step never changes the best match), and once such a candidate
with difference `dA < 60` s has been scanned, any later candidate whose
difference `dB` satisfies `dA ≤ dB` — in particular a type-compatible one with
`dA < dB < 60` s, and also ties `dB = dA` — is skipped outright, so it never
becomes the best match: the scan result is the same as if it were absent. -/
theorem c4_incompatible_shadowing (t : ActivityData) (a b : GarminActivity)
    (ta tb : DateTime) (l1 l2 l3 : List GarminActivity)
    (hpa : a.parsed_start_time = some ta) (hpb : b.parsed_start_time = some tb)
    (hIncompat : mappedStravaTypeOf a ≠ "" ∧ stravaTypeOf t ≠ "" ∧
      mappedStravaTypeOf a ≠ stravaTypeOf t)
    (ha60 : |DateTime.toMicro ta - DateTime.toMicro t.start_date| < 60 * 1000000)
    (_hb60 : |DateTime.toMicro tb - DateTime.toMicro t.start_date| < 60 * 1000000)
    (_hCompatB : mappedStravaTypeOf b = stravaTypeOf t)
    (hle : |DateTime.toMicro ta - DateTime.toMicro t.start_date| ≤
      |DateTime.toMicro tb - DateTime.toMicro t.start_date|) :
    (∀ s, (matchStep t s a).best_match = s.best_match) ∧
    find_matching_garmin_activity t (l1 ++ a :: (l2 ++ b :: l3)) =
      find_matching_garmin_activity t (l1 ++ a :: (l2 ++ l3)) := by
  constructor
  · exact matchStep_best_of_incompat t a hIncompat
  · unfold find_matching_garmin_activity
    simp only [List.foldl_append, List.foldl_cons]
    have hmin : minLeD
        (List.foldl (matchStep t) (matchStep t (List.foldl (matchStep t) ⟨none, none⟩ l1) a) l2)
        (|DateTime.toMicro ta - DateTime.toMicro t.start_date|) :=
      minLeD_fold_mono t l2 _ _ (matchStep_minLe t a ta hpa ha60 _)
    obtain ⟨m, hm, hmd⟩ := hmin
    rw [matchStep_skip t b tb hpb _ m hm (le_trans hmd hle)]

/-- Witness for C4 at a concrete input: with the incompatible `gCyc10` (10 s)
scanned before the compatible `gRun20` (20 s), the scan result equals the scan
result without `gRun20` (here: no match at all). -/
theorem c4_incompatible_shadowing_witness :
    find_matching_garmin_activity tgtRun [gCyc10, gRun20] =
      find_matching_garmin_activity tgtRun [gCyc10] :=
  (c4_incompatible_shadowing tgtRun gCyc10 gRun20
    ⟨2024, 1, 1, 10, 0, 10, 0⟩ ⟨2024, 1, 1, 10, 0, 20, 0⟩ [] [] []
    rfl rfl (by decide) (by decide) (by decide) (by decide) (by decide)).2

/-- C5: `needs_update` is true exactly when the effective (workout-preferred,
trimmed) name is non-empty, differs by exact string comparison from the
target's trimmed name, and either is not in the generic-name denylist or the
target's own trimmed name is itself in the denylist; `new_name` is the
effective name when an update is needed and the target's trimmed name
otherwise. -/
theorem c5_decision_needs_update (t : ActivityData) (g : GarminActivity) :
    ((should_update_activity t g).1 = true ↔
      (effectiveGarminName g ≠ "" ∧ effectiveGarminName g ≠ pyStrip t.name ∧
        (effectiveGarminName g ∉ genericNames ∨ pyStrip t.name ∈ genericNames))) ∧
    (should_update_activity t g).2.1 =
      (if (should_update_activity t g).1 = true then effectiveGarminName g
       else pyStrip t.name) := by
  unfold should_update_activity
  simp only
  split_ifs with h1 h2 <;> simp_all
  tauto

/-- Witness for C5 at a concrete input. -/
theorem c5_decision_needs_update_witness :
    (should_update_activity tgtRun gTempo).2.1 =
      (if (should_update_activity tgtRun gTempo).1 = true then effectiveGarminName gTempo
       else pyStrip tgtRun.name) :=
  (c5_decision_needs_update tgtRun gTempo).2

/-- C6: `new_description` is the effective (workout-preferred, trimmed)
description when it is non-empty and `None` otherwise, and it does not depend
on the target's name (hence not on the name comparison or on `needs_update`,
which are the only parts of the decision that read the target). -/
theorem c6_decision_new_description (t : ActivityData) (g : GarminActivity) :
    (should_update_activity t g).2.2 =
      (if effectiveGarminDescription g ≠ "" then some (effectiveGarminDescription g)
       else none) ∧
    ∀ otherName : String,
      (should_update_activity { t with name := otherName } g).2.2 =
        (should_update_activity t g).2.2 :=
  ⟨rfl, fun _ => rfl⟩

/-- Witness for C6 at a concrete input. -/
theorem c6_decision_new_description_witness :
    (should_update_activity tgtRun gTempo).2.2 =
      (if effectiveGarminDescription gTempo ≠ "" then
        some (effectiveGarminDescription gTempo) else none) :=
  (c6_decision_new_description tgtRun gTempo).1

/-- C8 (amended): the start-time string is parsed with `fromisoformat` after
removing every `'Z'` character when it contains `'T'`, and with
`strptime('%Y-%m-%d %H:%M:%S')` otherwise; an empty or unparseable start time
leaves the candidate pool unchanged (the record is never added); a
successfully parsed record whose activity id is non-empty is stored with the
`parsed_start_time` field attached. -/
theorem c8_parse_and_pool (pool : List (String × GarminActivity)) (a : GarminActivity) :
    (a.startTimeLocal = "" → _parse_garmin_start_time a.startTimeLocal = none) ∧
    (containsChar a.startTimeLocal 'T' = true →
      _parse_garmin_start_time a.startTimeLocal =
        fromisoformatCore (removeZ a.startTimeLocal)) ∧
    (a.startTimeLocal ≠ "" → containsChar a.startTimeLocal 'T' = false →
      _parse_garmin_start_time a.startTimeLocal = strptimeYmdHms a.startTimeLocal) ∧
    (_parse_garmin_start_time a.startTimeLocal = none →
      process_garmin_activity pool a = pool) ∧
    (∀ dt, _parse_garmin_start_time a.startTimeLocal = some dt → a.activityId ≠ "" →
      process_garmin_activity pool a =
        dictInsert pool a.activityId { a with parsed_start_time := some dt }) := by
  refine ⟨?_, ?_, ?_, ?_, ?_⟩
  · intro h
    unfold _parse_garmin_start_time
    rw [if_pos h]
  · intro h
    have hne : a.startTimeLocal ≠ "" := by
      intro he
      rw [he] at h
      exact absurd h (by decide)
    unfold _parse_garmin_start_time
    rw [if_neg hne, if_pos h]
  · intro hne hnc
    unfold _parse_garmin_start_time
    rw [if_neg hne, if_neg (by simp [hnc])]
  · intro h
    unfold process_garmin_activity
    by_cases hid : a.activityId = ""
    · rw [if_pos hid]
    · rw [if_neg hid, h]
  · intro dt h hid
    unfold process_garmin_activity
    rw [if_neg hid, h]

/-- C8 counterexample: a record with an empty activity id whose start time
parses successfully is nevertheless not added to the pool, contradicting
"a successfully parsed record is stored"; and a string with a non-trailing
`'Z'` (not ISO-8601 even after removing a trailing `'Z'`) still parses,
because the code removes every `'Z'`, not only a trailing one. -/
theorem c8_counterexample :
    _parse_garmin_start_time gNoId.startTimeLocal = some dt0 ∧
    process_garmin_activity [] gNoId = [] ∧
    _parse_garmin_start_time "2024-01-01TZ10:00:00Z" = some dt0 := by
  refine ⟨by decide, by decide, by decide⟩

/-- Witness for C8 at concrete inputs: a parseable record with a non-empty id
is stored with its parsed start time attached; an unparseable record leaves
the pool unchanged. -/
theorem c8_parse_and_pool_witness :
    process_garmin_activity [] gRaw = [("g1", gTempo)] ∧
    process_garmin_activity [] gGarb = [] := by
  constructor
  · have h := (c8_parse_and_pool [] gRaw).2.2.2.2 ⟨2024, 1, 1, 10, 0, 30, 0⟩
      (by decide) (by decide)
    rw [h]
    decide
  · exact (c8_parse_and_pool [] gGarb).2.2.2.1 (by decide)

/-! Lemmas about the coordinator. -/

/-- The outcome triple of `_process_sync_activity` does not depend on the
cache argument (the cache is only written, never read, by the processing of
one activity). -/
theorem process_outcome_indep (env : SyncEnv) (a : ActivityData) (c : List String) :
    (_process_sync_activity env a c).1 = (_process_sync_activity env a []).1 := by
  unfold _process_sync_activity
  cases find_matching_garmin_activity a env.garminActivities with
  | none => rfl
  | some g =>
    simp only
    split_ifs <;> rfl

/-- A non-error outcome always adds the activity's id to the cache. -/
theorem process_cache_of_not_err (env : SyncEnv) (a : ActivityData) (c : List String)
    (h : errFlag env a = false) :
    (_process_sync_activity env a c).2 = cacheAdd c a.id := by
  unfold errFlag at h
  unfold _process_sync_activity at h ⊢
  cases hfind : find_matching_garmin_activity a env.garminActivities with
  | none => rfl
  | some g =>
    rw [hfind] at h
    simp only at h ⊢
    by_cases h1 : (should_update_activity a g).1 = false
    · rw [if_pos h1]
    · rw [if_neg h1] at h ⊢
      by_cases h2 : update_strava_activity env.dry_run env.updateOk a.id
          (should_update_activity a g).2.1 (should_update_activity a g).2.2 = true
      · rw [if_pos h2]
      · rw [if_neg h2] at h
        exact Bool.noConfusion h

/-- An error outcome leaves the cache unchanged (the id is withheld). -/
theorem process_cache_of_err (env : SyncEnv) (a : ActivityData) (c : List String)
    (h : errFlag env a = true) :
    (_process_sync_activity env a c).2 = c := by
  unfold errFlag at h
  unfold _process_sync_activity at h ⊢
  cases hfind : find_matching_garmin_activity a env.garminActivities with
  | none => rw [hfind] at h; exact Bool.noConfusion h
  | some g =>
    rw [hfind] at h
    simp only at h ⊢
    by_cases h1 : (should_update_activity a g).1 = false
    · rw [if_pos h1] at h; exact Bool.noConfusion h
    · rw [if_neg h1] at h ⊢
      by_cases h2 : update_strava_activity env.dry_run env.updateOk a.id
          (should_update_activity a g).2.1 (should_update_activity a g).2.2 = true
      · rw [if_pos h2] at h; exact Bool.noConfusion h
      · rw [if_neg h2]

/-- Membership in the cache is preserved by `cacheAdd`. -/
theorem cacheAdd_mem (c : List String) (x id : String) (h : x ∈ c) : x ∈ cacheAdd c id := by
  unfold cacheAdd
  split_ifs
  · exact h
  · exact List.mem_append_left _ h

/-- `cacheAdd` puts the added id in the cache. -/
theorem cacheAdd_mem_self (c : List String) (id : String) : id ∈ cacheAdd c id := by
  unfold cacheAdd
  split_ifs with h
  · exact h
  · exact List.mem_append_right _ (List.mem_singleton.mpr rfl)

/-- `cacheAdd` adds nothing but the given id. -/
theorem cacheAdd_not_mem (c : List String) (x id : String) (hx : x ∉ c) (hne : id ≠ x) :
    x ∉ cacheAdd c id := by
  unfold cacheAdd
  split_ifs
  · exact hx
  · intro hmem
    rcases List.mem_append.mp hmem with h | h
    · exact hx h
    · exact hne (List.mem_singleton.mp h).symm

/-- Membership in the cache is preserved by one activity's processing. -/
theorem process_cache_mono (env : SyncEnv) (a : ActivityData) (c : List String)
    (x : String) (h : x ∈ c) : x ∈ (_process_sync_activity env a c).2 := by
  cases herr : errFlag env a with
  | false => rw [process_cache_of_not_err env a c herr]; exact cacheAdd_mem c x a.id h
  | true => rw [process_cache_of_err env a c herr]; exact h

/-- Membership in the cache is preserved by the whole reconcile loop. -/
theorem syncLoop_cache_mono (env : SyncEnv) (l : List ActivityData) :
    ∀ acc x, x ∈ acc.2 → x ∈ (syncLoop env l acc).2 := by
  induction l with
  | nil => intro acc x h; exact h
  | cons a rest ih =>
    intro acc x h
    exact ih _ x (process_cache_mono env a acc.2 x h)

/-- The error counter of the loop counts exactly the activities whose
processing ends in the error branch. -/
theorem syncLoop_errors (env : SyncEnv) (l : List ActivityData) :
    ∀ acc, (syncLoop env l acc).1.2.2 = acc.1.2.2 + l.countP (fun a => errFlag env a) := by
  induction l with
  | nil => intro acc; simp [syncLoop]
  | cons a rest ih =>
    intro acc
    show (syncLoop env rest _).1.2.2 = _
    rw [ih]
    have houtc : (_process_sync_activity env a acc.2).1 = (_process_sync_activity env a []).1 :=
      process_outcome_indep env a acc.2
    have herr : (_process_sync_activity env a acc.2).1.error = errFlag env a := by
      rw [houtc]; rfl
    rw [List.countP_cons]
    simp only [herr]
    cases errFlag env a
    · simp
    · simp
      omega

/-- Every activity of the loop whose processing does not error ends up with
its id in the final cache. -/
theorem syncLoop_adds (env : SyncEnv) (l : List ActivityData) :
    ∀ acc a, a ∈ l → errFlag env a = false → a.id ∈ (syncLoop env l acc).2 := by
  induction l with
  | nil => intro acc a h; cases h
  | cons b rest ih =>
    intro acc a h hf
    rcases List.mem_cons.mp h with rfl | hmem
    · show a.id ∈ (syncLoop env rest _).2
      apply syncLoop_cache_mono
      rw [process_cache_of_not_err env a acc.2 hf]
      exact cacheAdd_mem_self acc.2 a.id
    · exact ih _ a hmem hf

/-- An id outside the starting cache stays outside the final cache when every
pending activity carrying that id errors out. -/
theorem syncLoop_not_added (env : SyncEnv) (l : List ActivityData) :
    ∀ acc x, x ∉ acc.2 → (∀ b ∈ l, b.id = x → errFlag env b = true) →
      x ∉ (syncLoop env l acc).2 := by
  induction l with
  | nil => intro acc x h _; exact h
  | cons b rest ih =>
    intro acc x hx hall
    show x ∉ (syncLoop env rest _).2
    apply ih
    · cases hb : errFlag env b with
      | true => rw [process_cache_of_err env b acc.2 hb]; exact hx
      | false =>
        have hbid : b.id ≠ x := by
          intro he
          rw [hall b (List.mem_cons_self b rest) he] at hb
          exact Bool.noConfusion hb
        rw [process_cache_of_not_err env b acc.2 hb]
        exact cacheAdd_not_mem acc.2 x b.id hx hbid
    · intro b2 hb2 he
      exact hall b2 (List.mem_cons_of_mem _ hb2) he

/-- A filter over a list none of whose elements satisfies the predicate is
empty. -/
theorem filter_eq_nil_of_forall {α : Type} (p : α → Bool) :
    ∀ l : List α, (∀ a ∈ l, p a = false) → l.filter p = [] := by
  intro l
  induction l with
  | nil => intro _; rfl
  | cons a rest ih =>
    intro h
    rw [List.filter_cons, h a (List.mem_cons_self a rest)]
    exact ih (fun b hb => h b (List.mem_cons_of_mem _ hb))

/-- On a run that passes the blackout check and both client initialisations,
`sync_activities` reaches the reconcile loop and the persist step. -/
theorem sync_eq_main (env : SyncEnv) (c0 : List String)
    (hh : 6 ≤ env.hour) (hs : env.stravaInitOk = true) (hg : env.garminInitOk = true) :
    sync_activities env c0 = syncMainResult env c0 := by
  unfold sync_activities
  rw [if_neg (by omega), if_neg (by simp [hs]), if_neg (by simp [hg])]

/-- C9: while the Brussels local hour is at least 0 and strictly below 6, the
run returns success immediately: no Strava fetch, no Garmin fetch, no cache
read, no cache write, and no activity processed. -/
theorem c9_blackout_window (env : SyncEnv) (storedCache : List String)
    (h : env.hour < 6) :
    (sync_activities env storedCache).ok = true ∧
    (sync_activities env storedCache).fetchedStrava = false ∧
    (sync_activities env storedCache).fetchedGarmin = false ∧
    (sync_activities env storedCache).cacheLoaded = false ∧
    (sync_activities env storedCache).persistedCache = none ∧
    (sync_activities env storedCache).totalProcessed = 0 := by
  have hrun : sync_activities env storedCache = blackoutResult := by
    unfold sync_activities
    rw [if_pos ⟨Nat.zero_le _, h⟩]
  rw [hrun]
  exact ⟨rfl, rfl, rfl, rfl, rfl, rfl⟩

/-- Witness for C9 at a concrete input: at hour 3 the run is a success no-op
that persists nothing. -/
theorem c9_blackout_window_witness :
    (sync_activities { envUpdOk with hour := 3 } []).ok = true ∧
    (sync_activities { envUpdOk with hour := 3 } []).persistedCache = none :=
  ⟨(c9_blackout_window { envUpdOk with hour := 3 } [] (by decide)).1,
   (c9_blackout_window { envUpdOk with hour := 3 } [] (by decide)).2.2.2.2.1⟩

/-- C2 counterexample: a run in which the single matched activity's update
call fails returns success (`ok = true`), yet the fetched activity's id is not
in the persisted cache, and the immediately repeated run over the same
snapshot (starting from the persisted cache) processes it again, reporting
`totalProcessed = 1` and `errors = 1` instead of all zeros. -/
theorem c2_counterexample :
    (sync_activities envUpdFail []).ok = true ∧
    tgtRun ∈ envUpdFail.stravaActivities ∧
    tgtRun.id ∉ ((sync_activities envUpdFail []).persistedCache).getD [] ∧
    (sync_activities envUpdFail
        (((sync_activities envUpdFail []).persistedCache).getD [])).totalProcessed = 1 ∧
    (sync_activities envUpdFail
        (((sync_activities envUpdFail []).persistedCache).getD [])).errors = 1 := by
  refine ⟨by decide, by decide, by decide, by decide, by decide⟩

/-- C2 (amended): after one reconciliation run that reaches the reconcile loop
and reports zero errors over a fixed snapshot, every fetched Strava activity id
is in the persisted cache, so an immediately repeated run over the same
snapshot filters everything out at the cache step and reports `updates = 0`,
`errors = 0`, `totalProcessed = 0`, performing no Garmin fetch at all. -/
theorem c2_idempotent_after_clean_run (env : SyncEnv) (c0 : List String)
    (hh : 6 ≤ env.hour) (hs : env.stravaInitOk = true) (hg : env.garminInitOk = true)
    (he : (sync_activities env c0).errors = 0) :
    (sync_activities env c0).ok = true ∧
    (sync_activities env c0).persistedCache ≠ none ∧
    (∀ a ∈ env.stravaActivities, a.id ∈ ((sync_activities env c0).persistedCache).getD []) ∧
    (sync_activities env (((sync_activities env c0).persistedCache).getD [])).updates = 0 ∧
    (sync_activities env (((sync_activities env c0).persistedCache).getD [])).errors = 0 ∧
    (sync_activities env
        (((sync_activities env c0).persistedCache).getD [])).totalProcessed = 0 ∧
    (sync_activities env
        (((sync_activities env c0).persistedCache).getD [])).fetchedGarmin = false := by
  have hmain := sync_eq_main env c0 hh hs hg
  rw [hmain] at he ⊢
  simp only [syncMainResult, Option.getD_some] at he ⊢
  set c1 := (syncLoop env (pendingActivities env c0) ((0, 0, 0), c0)).2 with hc1
  have hcnt := syncLoop_errors env (pendingActivities env c0) ((0, 0, 0), c0)
  have hcount : (pendingActivities env c0).countP (fun a => errFlag env a) = 0 := by
    rw [hcnt] at he
    omega
  have hok : ∀ a ∈ pendingActivities env c0, errFlag env a = false := by
    intro a ha
    have h2 := List.countP_eq_zero.mp hcount a ha
    simpa using h2
  have hall : ∀ a ∈ env.stravaActivities, a.id ∈ c1 := by
    intro a ha
    by_cases hc : a.id ∈ c0
    · exact syncLoop_cache_mono env (pendingActivities env c0) ((0, 0, 0), c0) a.id hc
    · have hp : a ∈ pendingActivities env c0 :=
        List.mem_filter.mpr ⟨ha, by simp [hc]⟩
      exact syncLoop_adds env (pendingActivities env c0) ((0, 0, 0), c0) a hp (hok a hp)
  have hnil : pendingActivities env c1 = [] :=
    filter_eq_nil_of_forall _ _ (fun a ha => by simp [hall a ha])
  have hrun2 : sync_activities env c1 = syncMainResult env c1 := sync_eq_main env c1 hh hs hg
  refine ⟨trivial, by simp, hall, ?_, ?_, ?_, ?_⟩ <;>
    · rw [hrun2]
      simp [syncMainResult, hnil, syncLoop]

/-- Witness for C2 at a concrete input: after an error-free run, the repeated
run over the persisted cache processes nothing and never fetches Garmin. -/
theorem c2_idempotent_after_clean_run_witness :
    (sync_activities envUpdOk
        (((sync_activities envUpdOk []).persistedCache).getD [])).totalProcessed = 0 ∧
    (sync_activities envUpdOk
        (((sync_activities envUpdOk []).persistedCache).getD [])).fetchedGarmin = false :=
  ⟨(c2_idempotent_after_clean_run envUpdOk [] (by decide) rfl rfl (by decide)).2.2.2.2.2.1,
   (c2_idempotent_after_clean_run envUpdOk [] (by decide) rfl rfl (by decide)).2.2.2.2.2.2⟩

/-- C7: when the update call for a matched, update-worthy activity fails, the
run still completes (`ok = true`, all pending activities processed), the error
counter counts exactly the failing activities (so this one contributes one
error), and the failed activity's id is absent from the cache persisted at the
end of the run. -/
theorem c7_failed_update_retried (env : SyncEnv) (c0 : List String) (a : ActivityData)
    (g : GarminActivity)
    (hh : 6 ≤ env.hour) (hs : env.stravaInitOk = true) (hg : env.garminInitOk = true)
    (hdry : env.dry_run = false)
    (hnodup : (env.stravaActivities.map ActivityData.id).Nodup)
    (hmem : a ∈ env.stravaActivities) (hnc : a.id ∉ c0)
    (hm : find_matching_garmin_activity a env.garminActivities = some g)
    (hn : (should_update_activity a g).1 = true)
    (hu : env.updateOk a.id = false) :
    (sync_activities env c0).persistedCache ≠ none ∧
    a.id ∉ ((sync_activities env c0).persistedCache).getD [] ∧
    1 ≤ (sync_activities env c0).errors ∧
    (sync_activities env c0).errors =
      (pendingActivities env c0).countP (fun x => errFlag env x) ∧
    (sync_activities env c0).ok = true ∧
    (sync_activities env c0).totalProcessed = (pendingActivities env c0).length := by
  have hupd : update_strava_activity env.dry_run env.updateOk a.id
      (should_update_activity a g).2.1 (should_update_activity a g).2.2 = false := by
    unfold update_strava_activity
    rw [hdry]
    simpa using hu
  have herr : errFlag env a = true := by
    unfold errFlag _process_sync_activity
    rw [hm]
    simp only
    rw [if_neg (by simp [hn]), if_neg (by simp [hupd])]
  have hpend : a ∈ pendingActivities env c0 :=
    List.mem_filter.mpr ⟨hmem, by simp [hnc]⟩
  have hcarry : ∀ b ∈ pendingActivities env c0, b.id = a.id → errFlag env b = true := by
    intro b hb hbid
    have hbmem : b ∈ env.stravaActivities := (List.mem_filter.mp hb).1
    have hba : b = a := List.inj_on_of_nodup_map hnodup hbmem hmem hbid
    rw [hba]
    exact herr
  have hnot := syncLoop_not_added env (pendingActivities env c0) ((0, 0, 0), c0)
    a.id hnc hcarry
  have hmain := sync_eq_main env c0 hh hs hg
  rw [hmain]
  simp only [syncMainResult, Option.getD_some]
  refine ⟨by simp, hnot, ?_, ?_, trivial, trivial⟩
  · have hpos : 0 < (pendingActivities env c0).countP (fun x => errFlag env x) :=
      List.countP_pos_iff.mpr ⟨a, hpend, by simp [herr]⟩
    rw [syncLoop_errors]
    simpa using hpos
  · rw [syncLoop_errors]
    simp

/-- Witness for C7 at a concrete input: the failing activity's id is withheld
from the persisted cache and at least one error is counted. -/
theorem c7_failed_update_retried_witness :
    tgtRun.id ∉ ((sync_activities envUpdFail []).persistedCache).getD [] ∧
    1 ≤ (sync_activities envUpdFail []).errors :=
  ⟨(c7_failed_update_retried envUpdFail [] tgtRun gTempo (by decide) rfl rfl rfl
      (by decide) (by decide) (by decide) (by decide) (by decide) rfl).2.1,
   (c7_failed_update_retried envUpdFail [] tgtRun gTempo (by decide) rfl rfl rfl
      (by decide) (by decide) (by decide) (by decide) (by decide) rfl).2.2.1⟩

/-- C10: under dry-run the update operation reports success for every input
without consulting the real update outcome, so a dry run completes with zero
errors and every fetched activity id — including those whose pairing warranted
an update — lands in the persisted cache; a subsequent non-dry run over the
same snapshot that starts from that cache filters everything out, processes
nothing, never fetches Garmin, and so never applies the real update. -/
theorem c10_dry_run_marks_cache (env : SyncEnv) (c0 : List String)
    (hd : env.dry_run = true) (hh : 6 ≤ env.hour)
    (hs : env.stravaInitOk = true) (hg : env.garminInitOk = true) :
    (∀ oracle : String → Bool, ∀ id n d, update_strava_activity true oracle id n d = true) ∧
    (sync_activities env c0).ok = true ∧
    (sync_activities env c0).errors = 0 ∧
    (sync_activities env c0).persistedCache ≠ none ∧
    (∀ a ∈ env.stravaActivities, a.id ∈ ((sync_activities env c0).persistedCache).getD []) ∧
    (sync_activities { env with dry_run := false }
        (((sync_activities env c0).persistedCache).getD [])).totalProcessed = 0 ∧
    (sync_activities { env with dry_run := false }
        (((sync_activities env c0).persistedCache).getD [])).updates = 0 ∧
    (sync_activities { env with dry_run := false }
        (((sync_activities env c0).persistedCache).getD [])).fetchedGarmin = false := by
  have hnoerr : ∀ b : ActivityData, errFlag env b = false := by
    intro b
    unfold errFlag _process_sync_activity
    cases find_matching_garmin_activity b env.garminActivities with
    | none => rfl
    | some g =>
      simp only
      by_cases h1 : (should_update_activity b g).1 = false
      · rw [if_pos h1]
      · rw [if_neg h1, if_pos (by simp [update_strava_activity, hd])]
  have hmain := sync_eq_main env c0 hh hs hg
  rw [hmain]
  simp only [syncMainResult, Option.getD_some]
  set c1 := (syncLoop env (pendingActivities env c0) ((0, 0, 0), c0)).2 with hc1
  have hall : ∀ a ∈ env.stravaActivities, a.id ∈ c1 := by
    intro a ha
    by_cases hc : a.id ∈ c0
    · exact syncLoop_cache_mono env (pendingActivities env c0) ((0, 0, 0), c0) a.id hc
    · have hp : a ∈ pendingActivities env c0 :=
        List.mem_filter.mpr ⟨ha, by simp [hc]⟩
      exact syncLoop_adds env (pendingActivities env c0) ((0, 0, 0), c0) a hp (hnoerr a)
  have hnil : pendingActivities { env with dry_run := false } c1 = [] :=
    filter_eq_nil_of_forall _ _ (fun a ha => by simp [hall a ha])
  have hrun2 : sync_activities { env with dry_run := false } c1 =
      syncMainResult { env with dry_run := false } c1 :=
    sync_eq_main { env with dry_run := false } c1 hh hs hg
  refine ⟨fun oracle id n d => rfl, trivial, ?_, by simp, hall, ?_, ?_, ?_⟩
  · have hz : (pendingActivities env c0).countP (fun x => errFlag env x) = 0 :=
      List.countP_eq_zero.mpr (fun b hb => by simp [hnoerr b])
    rw [syncLoop_errors]
    simp [hz]
  · rw [hrun2]
    simp [syncMainResult, hnil, syncLoop]
  · rw [hrun2]
    simp [syncMainResult, hnil, syncLoop]
  · rw [hrun2]
    simp [syncMainResult, hnil, syncLoop]

/-- Witness for C10 at a concrete input: after the dry run, the follow-up real
run applies zero updates and never fetches Garmin. -/
theorem c10_dry_run_marks_cache_witness :
    (sync_activities { envDryRun with dry_run := false }
        (((sync_activities envDryRun []).persistedCache).getD [])).updates = 0 ∧
    (sync_activities { envDryRun with dry_run := false }
        (((sync_activities envDryRun []).persistedCache).getD [])).fetchedGarmin = false :=
  ⟨(c10_dry_run_marks_cache envDryRun [] rfl (by decide) rfl rfl).2.2.2.2.2.2.1,
   (c10_dry_run_marks_cache envDryRun [] rfl (by decide) rfl rfl).2.2.2.2.2.2.2⟩

end StravaGarmin
